import Mathlib

/-!
Verification of FitBodyTrack (Express/Mongoose fitness tracker).

Shallow embedding of the non-trivial backend logic:
* `calculateCalories` — MET-based calorie derivation
  (src/backend/controllers/workoutController.js, lines 5–19);
* `currentStreak` — streak counting backward from today
  (analytics controller, src/unnamed/part_002, lines 7–38);
* macro percentage splits (analytics `getMacrosData` and the frontend
  `nutritionUtils.calculateMacroPercentages`);
* `getForecast` — ordinary-least-squares weight forecast
  (src/unnamed/part_002, lines 336–402);
* progress duplicate-entry guard (`progressSchema.pre('save')`);
* ownership-checked delete/update handlers.

JavaScript numbers are modelled as `ℚ`; `Math.round` is Mathlib's `round`
(round-half-up, `round x = ⌊x + 1/2⌋`, which matches `Math.round` on all
inputs).  A possibly-absent JS value (`undefined`/`null`) is an `Option`.
-/

/-- JS truthiness of a possibly-missing number: `undefined`, `null` and `0`
are falsy, every other number is truthy.  (`NaN` is also falsy; the model
does not produce `NaN`.)  Mirrors the `!weight || !duration` style checks. -/
def jsTruthy : Option ℚ → Bool
  | none => false
  | some q => decide (q ≠ 0)

/-- JS truthiness of a possibly-missing string: `undefined`/`null` and the
empty string are falsy. -/
def jsTruthyStr : Option String → Bool
  | none => false
  | some s => decide (s ≠ "")

/-- JS `a || b` on possibly-missing numbers: the first operand when truthy,
otherwise the second operand. -/
def jsOr (a b : Option ℚ) : Option ℚ :=
  if jsTruthy a then a else b

/-- JS `String.prototype.toLowerCase`, as used on the workout type key.
This is `String.toLower` written as a direct map over the character list. -/
def jsToLowerCase (s : String) : String :=
  String.mk (s.data.map Char.toLower)

/-- The `MET_VALUES` coefficient table of
src/backend/controllers/workoutController.js lines 5–10: an object lookup
returning the MET factor, or nothing for a key that is absent. -/
def MET_VALUES (t : String) : Option ℚ :=
  if t = "running" then some 9.8
  else if t = "walking" then some 3.8
  else if t = "cycling" then some 7.5
  else if t = "pushups" then some 8.0
  else none

/-- Embeds `calculateCalories` (workoutController.js lines 13–19):

    const metValue = MET_VALUES[type.toLowerCase()];
    if (!metValue || !weight || !duration) return null;
    return Math.round(metValue * weight * (duration / 60));

No table value is `0`, so `!metValue` is exactly "key absent"; `!weight`
and `!duration` are falsy exactly on a missing or zero value. -/
def calculateCalories (type : String) (duration weight : Option ℚ) : Option ℤ :=
  match MET_VALUES (jsToLowerCase type), duration, weight with
  | some metValue, some d, some w =>
      if d = 0 ∨ w = 0 then none
      else some (round (metValue * w * (d / 60)))
  | _, _, _ => none

theorem MET_VALUES_pos (t : String) (c : ℚ) (h : MET_VALUES t = some c) : 0 < c := by
  unfold MET_VALUES at h
  split_ifs at h <;> simp_all <;> norm_num [← h]

/-- Evaluation of `calculateCalories` on present, non-zero inputs. -/
theorem calculateCalories_some (t : String) (c : ℚ)
    (hc : MET_VALUES (jsToLowerCase t) = some c) (d w : ℚ) (hd : d ≠ 0) (hw : w ≠ 0) :
    calculateCalories t (some d) (some w) = some (round (c * w * (d / 60))) := by
  unfold calculateCalories
  rw [hc]
  simp [hd, hw]

/-- C1: for every activity type in the fixed coefficient table
(running = 9.8, walking = 3.8, cycling = 7.5, pushups = 8.0) and every
positive duration (minutes) and positive weight (kg), `calculateCalories`
returns exactly `round(coefficient * weight * (duration / 60))`. -/
theorem calculateCalories_formula (t : String) (c : ℚ)
    (hc : MET_VALUES (jsToLowerCase t) = some c) (d w : ℚ) (hd : 0 < d) (hw : 0 < w) :
    calculateCalories t (some d) (some w) = some (round (c * w * (d / 60))) ∧
    MET_VALUES "running" = some 9.8 ∧ MET_VALUES "walking" = some 3.8 ∧
    MET_VALUES "cycling" = some 7.5 ∧ MET_VALUES "pushups" = some 8.0 := by
  exact ⟨calculateCalories_some t c hc d w hd.ne' hw.ne', by simp [MET_VALUES],
    by simp [MET_VALUES], by simp [MET_VALUES], by simp [MET_VALUES]⟩

/-- Witness for C1 at a concrete input: running for 30 minutes at 70 kg
gives round(9.8 · 70 · 0.5) = 343 kcal. -/
theorem calculateCalories_formula_witness :
    calculateCalories "running" (some 30) (some 70) = some (round ((9.8 : ℚ) * 70 * (30 / 60))) :=
  (calculateCalories_formula "running" 9.8
    (by rw [show jsToLowerCase "running" = "running" from rfl]; simp [MET_VALUES])
    30 70 (by norm_num) (by norm_num)).1

/-- C2 counterexample: the claim says a non-positive duration yields `null`,
but `calculateCalories("running", -60, 70)` returns a computed value,
round(9.8 · 70 · (−60/60)) = −686: the JS guard `!duration` is false for a
negative number. -/
theorem calculateCalories_negative_not_null :
    calculateCalories "running" (some (-60)) (some 70) = some (-686) ∧
    (-60 : ℚ) ≤ 0 := by
  constructor
  · unfold calculateCalories
    rw [show jsToLowerCase "running" = "running" from rfl]
    simp only [MET_VALUES, if_pos]
    norm_num [round_eq]
  · norm_num

/-- C2 (amended): `calculateCalories` returns `null` exactly when the
activity type is not in the coefficient table or the duration or weight is
missing or zero (JS falsy); a negative duration or weight is not rejected. -/
theorem calculateCalories_null_cases (t : String) (d w : Option ℚ)
    (h : MET_VALUES (jsToLowerCase t) = none ∨
         d = none ∨ d = some 0 ∨ w = none ∨ w = some 0) :
    calculateCalories t d w = none := by
  unfold calculateCalories
  rcases h with h | h | h | h | h
  · rw [h]
  · subst h
    rcases MET_VALUES (jsToLowerCase t) with _ | m <;> rcases w with _ | w <;> rfl
  · subst h
    rcases MET_VALUES (jsToLowerCase t) with _ | m <;> rcases w with _ | w <;> simp
  · subst h
    rcases MET_VALUES (jsToLowerCase t) with _ | m <;> rcases d with _ | d <;> rfl
  · subst h
    rcases MET_VALUES (jsToLowerCase t) with _ | m <;> rcases d with _ | d <;> simp

/-- Witness for the amended C2: an unknown activity type ("yoga") yields
no derivation. -/
theorem calculateCalories_null_cases_witness :
    calculateCalories "yoga" (some 30) (some 70) = none :=
  calculateCalories_null_cases "yoga" (some 30) (some 70)
    (Or.inl (by rw [show jsToLowerCase "yoga" = "yoga" from rfl]; simp [MET_VALUES]))

/-- C9: for every activity type in the coefficient table, derivation is
deterministic (it is a function: equal inputs give equal outputs) and
monotone in duration and weight: with `0 < d1 ≤ d2` and `0 < w1 ≤ w2`,
both calls succeed and the first result is at most the second. -/
theorem calculateCalories_mono (t : String) (c : ℚ)
    (hc : MET_VALUES (jsToLowerCase t) = some c)
    (d1 d2 w1 w2 : ℚ) (hd1 : 0 < d1) (hd12 : d1 ≤ d2) (hw1 : 0 < w1) (hw12 : w1 ≤ w2) :
    calculateCalories t (some d1) (some w1) = calculateCalories t (some d1) (some w1) ∧
    ∃ r1 r2 : ℤ, calculateCalories t (some d1) (some w1) = some r1 ∧
      calculateCalories t (some d2) (some w2) = some r2 ∧ r1 ≤ r2 := by
  have hcpos : 0 < c := MET_VALUES_pos _ _ hc
  have hd2 : 0 < d2 := lt_of_lt_of_le hd1 hd12
  have hw2 : 0 < w2 := lt_of_lt_of_le hw1 hw12
  refine ⟨rfl, round (c * w1 * (d1 / 60)), round (c * w2 * (d2 / 60)),
    calculateCalories_some t c hc d1 w1 hd1.ne' hw1.ne',
    calculateCalories_some t c hc d2 w2 hd2.ne' hw2.ne', ?_⟩
  rw [round_eq, round_eq]
  apply Int.floor_mono
  have hmul : c * w1 * (d1 / 60) ≤ c * w2 * (d2 / 60) := by
    apply mul_le_mul
    · exact mul_le_mul_of_nonneg_left hw12 hcpos.le
    · linarith
    · positivity
    · positivity
  linarith

/-- Witness for C9: walking 30→60 minutes at 60→80 kg gives 114 ≤ 304. -/
theorem calculateCalories_mono_witness :
    ∃ r1 r2 : ℤ, calculateCalories "walking" (some 30) (some 60) = some r1 ∧
      calculateCalories "walking" (some 60) (some 80) = some r2 ∧ r1 ≤ r2 :=
  (calculateCalories_mono "walking" 3.8
    (by rw [show jsToLowerCase "walking" = "walking" from rfl]; simp [MET_VALUES])
    30 60 60 80 (by norm_num) (by norm_num) (by norm_num) (by norm_num)).2

/-!
### Streak counting (analytics controller, src/unnamed/part_002 lines 7–38)

A document's date, normalized to midnight (`new Date(y, m, d)`), is
modelled as an integer day number; "the previous day" is subtraction of 1.
`docs : List ℤ` holds the normalized day of each document (the `dateMap`
grouping only affects which days are present, which list membership
captures).  The `while` loop walks back from `today` while the current day
has an entry.  The loop can run at most `docs.length` iterations (each
counted day is distinct and has an entry), so that bound serves as fuel.
-/

/-- The backward walk of `currentStreak`: count consecutive days with an
entry, starting at `current` and stepping to the previous day. -/
def streakLoop (dates : List ℤ) (current : ℤ) : ℕ → ℕ
  | 0 => 0
  | fuel + 1 =>
      if current ∈ dates then streakLoop dates (current - 1) fuel + 1
      else 0

/-- Embeds `currentStreak` (src/unnamed/part_002 lines 7–38): 0 for an
empty collection, otherwise the backward walk from `today`. -/
def currentStreak (docs : List ℤ) (today : ℤ) : ℕ :=
  if docs.length = 0 then 0
  else streakLoop docs today docs.length

theorem streakLoop_eq (dates : List ℤ) (n : ℕ) :
    ∀ (d : ℤ) (fuel : ℕ), (∀ i : ℕ, i < n → (d - i) ∈ dates) →
      (d - n) ∉ dates → n ≤ fuel → streakLoop dates d fuel = n := by
  induction n with
  | zero =>
      intro d fuel hmem hgap _
      rcases fuel with _ | fuel
      · rfl
      · have hd : d ∉ dates := by simpa using hgap
        simp [streakLoop, hd]
  | succ m ih =>
      intro d fuel hmem hgap hfuel
      rcases fuel with _ | fuel
      · omega
      · have hd : d ∈ dates := by simpa using hmem 0 (Nat.succ_pos m)
        have hrec : streakLoop dates (d - 1) fuel = m := by
          apply ih
          · intro i hi
            have := hmem (i + 1) (by omega)
            have he : d - (↑(i + 1) : ℤ) = d - 1 - i := by push_cast; ring
            rwa [he] at this
          · have he : d - (↑(m + 1) : ℤ) = d - 1 - m := by push_cast; ring
            rwa [he] at hgap
          · omega
        simp [streakLoop, hd, hrec]

/-- Consecutive covered days are pairwise distinct members of `docs`, so a
streak of `n` forces `n ≤ docs.length`. -/
theorem streak_le_length (docs : List ℤ) (today : ℤ) (n : ℕ)
    (hmem : ∀ i : ℕ, i < n → (today - i) ∈ docs) : n ≤ docs.length := by
  have hcard : (Finset.range n).card ≤ docs.toFinset.card := by
    apply Finset.card_le_card_of_injOn (fun i : ℕ => today - i)
    · intro i hi
      rw [List.mem_toFinset]
      exact hmem i (Finset.mem_range.mp hi)
    · intro a _ b _ hab
      have hab2 : today - (a : ℤ) = today - b := hab
      have : (a : ℤ) = b := by omega
      exact_mod_cast this
  calc n = (Finset.range n).card := (Finset.card_range n).symm
    _ ≤ docs.toFinset.card := hcard
    _ ≤ docs.length := docs.toFinset_card_le

/-- C3: `currentStreak` equals the number of consecutive calendar days with
at least one entry, counting backward from today and stopping at the first
uncovered day.  Instantiating `n`: an empty collection gives 0; today
covered, yesterday not gives 1 (`n = 1`); yesterday covered but today not
gives 0 (`n = 0`). -/
theorem currentStreak_eq (docs : List ℤ) (today : ℤ) (n : ℕ)
    (hmem : ∀ i : ℕ, i < n → (today - i) ∈ docs)
    (hgap : (today - n) ∉ docs) :
    currentStreak docs today = n := by
  unfold currentStreak
  rcases docs with _ | ⟨a, rest⟩
  · rcases n with _ | m
    · rfl
    · exact absurd (hmem 0 (Nat.succ_pos m)) (List.not_mem_nil _)
  · rw [if_neg (by simp)]
    exact streakLoop_eq _ n today _ hmem hgap (streak_le_length _ today n hmem)

/-- Witness for C3: entries on days 9 and 10 with today = 10 give streak 2;
the hypotheses hold at `n = 2` since day 8 has no entry. -/
theorem currentStreak_eq_witness : currentStreak [10, 9] 10 = 2 := by
  apply currentStreak_eq [10, 9] 10 2
  · intro i hi
    interval_cases i <;> simp
  · simp

/-!
### Macro percentage splits

Two places in the source compute the same split; both are embedded:
the frontend `nutritionUtils.calculateMacroPercentages`
(src/unnamed/part_000, lines 265–274) and the analytics `getMacrosData`
response values (src/unnamed/part_002, lines 278–293).  For `getMacrosData`
the aggregation totals of a user with no nutrition rows are all zero, so
the `!macrosData.length` arm of its guard coincides with the
zero-total arm; the value computation is what is embedded.
-/

/-- Embeds `nutritionUtils.calculateMacroPercentages`:

    const total = protein + carbs + fat;
    if (total === 0) return { protein: 0, carbs: 0, fat: 0 };
    return { protein: Math.round((protein / total) * 100), ... };
-/
def calculateMacroPercentages (protein carbs fat : ℚ) : ℤ × ℤ × ℤ :=
  let total := protein + carbs + fat
  if total = 0 then (0, 0, 0)
  else
    (round (protein / total * 100), round (carbs / total * 100),
     round (fat / total * 100))

/-- Embeds the value part of `getMacrosData` (src/unnamed/part_002,
lines 278–293): zero values when the macro totals sum to zero, otherwise
`Math.round((totalProtein / total) * 100)` and likewise for carbs/fat. -/
def getMacrosValues (totalProtein totalCarbs totalFat : ℚ) : ℤ × ℤ × ℤ :=
  if totalProtein + totalCarbs + totalFat = 0 then (0, 0, 0)
  else
    let total := totalProtein + totalCarbs + totalFat
    (round (totalProtein / total * 100), round (totalCarbs / total * 100),
     round (totalFat / total * 100))

/-- Three rounded summands of an exact total of 100 miss 100 by at most 1. -/
theorem round_sum_near (a b g : ℚ) (h : a + b + g = 100) :
    |round a + round b + round g - 100| ≤ 1 := by
  have h1 : |a - round a| ≤ 1 / 2 := abs_sub_round a
  have h2 : |b - round b| ≤ 1 / 2 := abs_sub_round b
  have h3 : |g - round g| ≤ 1 / 2 := abs_sub_round g
  rw [abs_sub_comm] at h1 h2 h3
  have hq : |((round a + round b + round g - 100 : ℤ) : ℚ)| ≤ 3 / 2 := by
    have he : ((round a + round b + round g - 100 : ℤ) : ℚ) =
        ((round a : ℚ) - a) + ((round b : ℚ) - b) + ((round g : ℚ) - g) := by
      push_cast
      linarith
    rw [he]
    calc |((round a : ℚ) - a) + ((round b : ℚ) - b) + ((round g : ℚ) - g)|
        ≤ |((round a : ℚ) - a)| + |((round b : ℚ) - b)| + |((round g : ℚ) - g)| :=
          abs_add_three _ _ _
      _ ≤ 1 / 2 + 1 / 2 + 1 / 2 := by gcongr
      _ = 3 / 2 := by norm_num
  rw [← Int.cast_abs] at hq
  by_contra hcon
  push_neg at hcon
  have h2le : (2 : ℤ) ≤ |round a + round b + round g - 100| := hcon
  have : (2 : ℚ) ≤ ((|round a + round b + round g - 100| : ℤ) : ℚ) := by
    exact_mod_cast h2le
  linarith

/-- C4: each macro percentage is `round(100·component/total)`; a zero total
gives `(0, 0, 0)`; a positive total makes the three rounded percentages sum
to 100 ± 1.  The analytics endpoint computes the same values as the
frontend utility. -/
theorem macroPercentages_correct (p c f : ℚ) (hp : 0 ≤ p) (hc : 0 ≤ c) (hf : 0 ≤ f) :
    calculateMacroPercentages p c f = getMacrosValues p c f ∧
    (p + c + f = 0 → calculateMacroPercentages p c f = (0, 0, 0)) ∧
    (0 < p + c + f →
      calculateMacroPercentages p c f =
        (round (100 * p / (p + c + f)), round (100 * c / (p + c + f)),
         round (100 * f / (p + c + f))) ∧
      |(calculateMacroPercentages p c f).1 + (calculateMacroPercentages p c f).2.1 +
        (calculateMacroPercentages p c f).2.2 - 100| ≤ 1) := by
  refine ⟨rfl, ?_, ?_⟩
  · intro h
    simp [calculateMacroPercentages, h]
  · intro ht
    have hne : p + c + f ≠ 0 := ne_of_gt ht
    have e1 : p / (p + c + f) * 100 = 100 * p / (p + c + f) := by ring
    have e2 : c / (p + c + f) * 100 = 100 * c / (p + c + f) := by ring
    have e3 : f / (p + c + f) * 100 = 100 * f / (p + c + f) := by ring
    have hval : calculateMacroPercentages p c f =
        (round (100 * p / (p + c + f)), round (100 * c / (p + c + f)),
         round (100 * f / (p + c + f))) := by
      simp only [calculateMacroPercentages, if_neg hne]
      rw [e1, e2, e3]
    refine ⟨hval, ?_⟩
    rw [hval]
    apply round_sum_near
    field_simp
    ring

/-- Witness for C4: totals 30/50/20 g give (30, 50, 20), which sums to 100. -/
theorem macroPercentages_correct_witness :
    calculateMacroPercentages 30 50 20 =
      (round ((100 : ℚ) * 30 / 100), round ((100 : ℚ) * 50 / 100),
       round ((100 : ℚ) * 20 / 100)) ∧
    |(calculateMacroPercentages 30 50 20).1 + (calculateMacroPercentages 30 50 20).2.1 +
      (calculateMacroPercentages 30 50 20).2.2 - 100| ≤ 1 := by
  have h := (macroPercentages_correct 30 50 20 (by norm_num) (by norm_num)
    (by norm_num)).2.2 (by norm_num)
  constructor
  · have := h.1
    norm_num at this ⊢
    exact this
  · exact h.2

/-!
### Weight forecast (`getForecast`, src/unnamed/part_002 lines 336–402)

The fetched `weightData` (weights sorted by date ascending) is a
`List ℚ`.  Fewer than 2 samples answer `prediction: null` with an
explanatory message, modelled as `Except.error` carrying that message.
Otherwise the `forEach` loop accumulates `sumX, sumY, sumXY, sumX2` over
`(index, weight)` pairs, and `slope`, `weeklyTrend = slope * 7` and
`monthlyTrend = slope * 30` are derived (the response's `toFixed(2)`
string formatting and the gaining/losing message are presentation and are
not modelled).
-/

/-- The `forEach` accumulation of `getForecast` (lines 359–368): running
`(sumX, sumY, sumXY, sumX2)` over the samples, `index` being the zero-based
chronological position. -/
def forecastSumsAux : List ℚ → ℕ → ℚ × ℚ × ℚ × ℚ → ℚ × ℚ × ℚ × ℚ
  | [], _, acc => acc
  | y :: rest, index, (sumX, sumY, sumXY, sumX2) =>
      forecastSumsAux rest (index + 1)
        (sumX + index, sumY + y, sumXY + index * y, sumX2 + index * index)

/-- The slope computation of `getForecast` (line 371):
`(n * sumXY - sumX * sumY) / (n * sumX2 - sumX * sumX)`. -/
def olsSlope (weightData : List ℚ) : ℚ :=
  ((weightData.length : ℚ) * (forecastSumsAux weightData 0 (0, 0, 0, 0)).2.2.1
      - (forecastSumsAux weightData 0 (0, 0, 0, 0)).1
        * (forecastSumsAux weightData 0 (0, 0, 0, 0)).2.1)
    / ((weightData.length : ℚ) * (forecastSumsAux weightData 0 (0, 0, 0, 0)).2.2.2
      - (forecastSumsAux weightData 0 (0, 0, 0, 0)).1
        * (forecastSumsAux weightData 0 (0, 0, 0, 0)).1)

/-- The numeric content of a successful forecast response (lines 387–393). -/
structure Forecast where
  currentWeight : ℚ
  weeklyTrend : ℚ
  monthlyTrend : ℚ
  dataPoints : ℕ
deriving DecidableEq

/-- Embeds `getForecast` (lines 350–393): the insufficient-data answer for
fewer than 2 samples, otherwise current weight (last sample), weekly and
monthly trends from the least-squares slope, and the sample count. -/
def getForecast (weightData : List ℚ) : Except String Forecast :=
  if weightData.length < 2 then
    .error "Need at least 2 weight entries to generate forecast"
  else
    .ok ⟨weightData.getD (weightData.length - 1) 0,
      olsSlope weightData * 7, olsSlope weightData * 30, weightData.length⟩

/-- The OLS slope as the spec states it: with `n` samples and `x` the
zero-based chronological position,
`slope = (n·Σ(xy) − Σx·Σy) / (n·Σ(x²) − (Σx)²)`. -/
def olsSlope_spec (l : List ℚ) : ℚ :=
  ((l.length : ℚ) * (∑ j in Finset.range l.length, (j : ℚ) * l.getD j 0)
      - (∑ j in Finset.range l.length, (j : ℚ))
        * (∑ j in Finset.range l.length, l.getD j 0))
    / ((l.length : ℚ) * (∑ j in Finset.range l.length, (j : ℚ) * (j : ℚ))
      - (∑ j in Finset.range l.length, (j : ℚ))
        * (∑ j in Finset.range l.length, (j : ℚ)))

/-- The `forEach` accumulator equals the four independent sums, for any
starting index and initial accumulator. -/
theorem forecastSumsAux_eq (l : List ℚ) :
    ∀ (i : ℕ) (a b c d : ℚ),
      forecastSumsAux l i (a, b, c, d) =
        (a + ∑ j in Finset.range l.length, ((i + j : ℕ) : ℚ),
         b + ∑ j in Finset.range l.length, l.getD j 0,
         c + ∑ j in Finset.range l.length, ((i + j : ℕ) : ℚ) * l.getD j 0,
         d + ∑ j in Finset.range l.length, ((i + j : ℕ) : ℚ) * ((i + j : ℕ) : ℚ)) := by
  induction l with
  | nil => intro i a b c d; simp [forecastSumsAux]
  | cons y rest ih =>
      intro i a b c d
      rw [show forecastSumsAux (y :: rest) i (a, b, c, d) =
            forecastSumsAux rest (i + 1) (a + i, b + y, c + i * y, d + i * i) from rfl,
        ih]
      simp only [List.length_cons, Prod.mk.injEq]
      refine ⟨?_, ?_, ?_, ?_⟩
      · rw [Finset.sum_range_succ',
          Finset.sum_congr rfl (fun j _ => show ((i + (j + 1) : ℕ) : ℚ) = ((i + 1 + j : ℕ) : ℚ)
            by push_cast; ring)]
        push_cast
        ring
      · rw [Finset.sum_range_succ']
        simp only [List.getD_cons_succ, List.getD_cons_zero]
        ring
      · rw [Finset.sum_range_succ',
          Finset.sum_congr rfl (fun j _ =>
            show ((i + (j + 1) : ℕ) : ℚ) * (y :: rest).getD (j + 1) 0
                = ((i + 1 + j : ℕ) : ℚ) * rest.getD j 0 by
              rw [List.getD_cons_succ]; congr 1; push_cast; ring)]
        simp only [List.getD_cons_zero]
        push_cast
        ring
      · rw [Finset.sum_range_succ',
          Finset.sum_congr rfl (fun j _ =>
            show ((i + (j + 1) : ℕ) : ℚ) * ((i + (j + 1) : ℕ) : ℚ)
                = ((i + 1 + j : ℕ) : ℚ) * ((i + 1 + j : ℕ) : ℚ) by push_cast; ring)]
        push_cast
        ring

/-- C5: for `n ≥ 2` samples the forecast carries weekly trend `slope × 7`
and monthly trend `slope × 30`, with `slope` the ordinary-least-squares
formula `(n·Σ(xy) − Σx·Σy) / (n·Σ(x²) − (Σx)²)` over zero-based positions;
with exactly the samples 70, 72 it yields slope 2, weekly trend 14.0 and
monthly trend 60.0. -/
theorem getForecast_formula (l : List ℚ) (h : 2 ≤ l.length) :
    getForecast l = .ok ⟨l.getD (l.length - 1) 0,
      olsSlope_spec l * 7, olsSlope_spec l * 30, l.length⟩ ∧
    olsSlope_spec [70, 72] = 2 ∧
    getForecast [70, 72] = .ok ⟨72, 14, 60, 2⟩ := by
  have hslope : ∀ m : List ℚ, olsSlope m = olsSlope_spec m := by
    intro m
    unfold olsSlope olsSlope_spec
    rw [forecastSumsAux_eq]
    simp [Nat.zero_add]
  have hspec2 : olsSlope_spec [70, 72] = 2 := by
    rw [← hslope]
    norm_num [olsSlope, forecastSumsAux]
  refine ⟨?_, hspec2, ?_⟩
  · unfold getForecast
    rw [if_neg (by omega), hslope]
  · unfold getForecast
    rw [if_neg (by norm_num), hslope, hspec2]
    norm_num

/-- Witness for C5: the concrete two-sample forecast (70 then 72). -/
theorem getForecast_formula_witness :
    olsSlope_spec [70, 72] = 2 ∧ getForecast [70, 72] = .ok ⟨72, 14, 60, 2⟩ :=
  (getForecast_formula [70, 72] (by norm_num)).2

/-- C6: with fewer than 2 samples in the lookback window, `getForecast`
answers the insufficient-data message and no numeric result. -/
theorem getForecast_insufficient (l : List ℚ) (h : l.length < 2) :
    getForecast l = .error "Need at least 2 weight entries to generate forecast" := by
  unfold getForecast
  rw [if_pos h]

/-- Witness for C6: a single sample gives the insufficient-data answer. -/
theorem getForecast_insufficient_witness :
    getForecast [70] = .error "Need at least 2 weight entries to generate forecast" :=
  getForecast_insufficient [70] (by norm_num)

/-!
### Progress entries and the duplicate-day guard
(src/backend/server.js, `progressSchema.pre('save')`, and
`addProgress` in src/backend/controllers/progressController.js)

A progress document carries its owner, its calendar day (the source
compares the stored date against the `[startOfDay, endOfDay]` range of the
new entry's date, i.e. same calendar day; the day is modelled as an
integer day number) and the weight.  The store is the list of saved
documents.  `Progress.create` runs the pre-save hook: `findOne` for the
same user and day, reject with `DuplicateEntryError` when one exists,
otherwise persist.
-/

/-- A stored progress document: `_id`, `userId`, calendar day, weight. -/
structure ProgressDoc where
  id : ℕ
  userId : ℕ
  day : ℤ
  weight : ℚ
deriving DecidableEq

/-- The `findOne` of the pre-save hook: is there a document of the same
user on the same calendar day? -/
def duplicateExists (store : List ProgressDoc) (e : ProgressDoc) : Bool :=
  store.any (fun x => x.userId == e.userId && x.day == e.day)

/-- `Progress.create` as run by `addProgress`: the pre-save hook rejects a
same-user same-day duplicate with `DuplicateEntryError` (surfaced by the
controller as a failed request), otherwise the document is persisted. -/
def saveProgress (store : List ProgressDoc) (e : ProgressDoc) :
    Except String (List ProgressDoc) :=
  if duplicateExists store e then
    .error "Progress entry already exists for this date"
  else
    .ok (store ++ [e])

/-- The invariant of the data model: no two stored documents share a user
and a calendar day. -/
def atMostOnePerDay (store : List ProgressDoc) : Prop :=
  store.Pairwise (fun a b => ¬(a.userId = b.userId ∧ a.day = b.day))

/-- C7: after a progress entry for a user and day is stored, a second
sequential attempt for the same user and day is rejected with the
duplicate-entry error (leaving the store as it was), and a successful save
preserves the at-most-one-entry-per-user-per-day invariant. -/
theorem saveProgress_duplicate_rejected (store store2 : List ProgressDoc)
    (e e2 : ProgressDoc) (hsave : saveProgress store e = .ok store2)
    (hu : e2.userId = e.userId) (hd : e2.day = e.day) :
    saveProgress store2 e2 = .error "Progress entry already exists for this date" ∧
    (atMostOnePerDay store → atMostOnePerDay store2) := by
  unfold saveProgress at hsave
  by_cases hdup : duplicateExists store e
  · rw [if_pos hdup] at hsave
    exact absurd hsave (by simp)
  · rw [if_neg hdup] at hsave
    have hstore2 : store2 = store ++ [e] := by
      cases hsave
      rfl
    subst hstore2
    constructor
    · unfold saveProgress
      rw [if_pos ?_]
      unfold duplicateExists
      rw [List.any_eq_true]
      exact ⟨e, by simp, by simp [hu, hd]⟩
    · intro hinv
      unfold duplicateExists at hdup
      rw [Bool.not_eq_true, List.any_eq_false] at hdup
      unfold atMostOnePerDay
      rw [List.pairwise_append]
      refine ⟨hinv, List.pairwise_singleton _ _, ?_⟩
      intro a ha b hb
      have hbe : b = e := List.mem_singleton.mp hb
      subst hbe
      have := hdup a ha
      simp only [Bool.and_eq_true, beq_iff_eq] at this
      tauto

/-- Witness for C7: saving for user 1 on day 0 and then again for user 1
on day 0 is rejected on the second attempt. -/
theorem saveProgress_duplicate_rejected_witness :
    saveProgress [⟨1, 1, 0, 70⟩] ⟨2, 1, 0, 71⟩ =
      .error "Progress entry already exists for this date" :=
  (saveProgress_duplicate_rejected [] [⟨1, 1, 0, 70⟩] ⟨1, 1, 0, 70⟩ ⟨2, 1, 0, 71⟩
    rfl rfl rfl).1

/-!
### Ownership-checked mutating handlers
(deleteWorkout/updateWorkout in workoutController.js, deleteNutrition in
nutritionController.js, deleteProgress in progressController.js)

Each handler looks its record up by id, answers not-found when no record
has the id, answers 401 "User not authorized" when the record's owner is
not the caller, and only then mutates.  Results are a response plus the
store after the call.  The `!req.user` guard (401 "User not found") is
outside the model: a caller id is always present here.  Each document is
modelled with a numeric `_id` and owner id and its schema's data fields.
-/

/-- A stored workout document (models/Workout.js): the `weight` field is
optional in the schema. -/
structure WorkoutDoc where
  id : ℕ
  userId : ℕ
  type : String
  duration : ℚ
  weight : Option ℚ
  calories : ℚ
deriving DecidableEq

/-- A stored nutrition document (models/Nutrition.js). -/
structure NutritionDoc where
  id : ℕ
  userId : ℕ
  food : String
  calories : ℚ
  protein : ℚ
  carbs : ℚ
  fat : ℚ
deriving DecidableEq

/-- An HTTP-level outcome: an error response (status, message) or a
success response (status, payload). -/
inductive ApiResult (α : Type) where
  | err (status : ℕ) (message : String)
  | ok (status : ℕ) (payload : α)
deriving DecidableEq

/-- Embeds `deleteWorkout` (workoutController.js lines 165–189): findById,
400 not-found, 401 on owner mismatch, else findByIdAndDelete and 200 with
the id. -/
def deleteWorkout (store : List WorkoutDoc) (callerId wid : ℕ) :
    ApiResult ℕ × List WorkoutDoc :=
  match store.find? (fun x => x.id == wid) with
  | none => (.err 400 "Workout not found", store)
  | some w =>
      if w.userId ≠ callerId then (.err 401 "User not authorized", store)
      else (.ok 200 wid, store.filter (fun x => x.id != wid))

/-- Embeds `deleteNutrition` (nutritionController.js lines 169–194); its
not-found status is 404. -/
def deleteNutrition (store : List NutritionDoc) (callerId nid : ℕ) :
    ApiResult ℕ × List NutritionDoc :=
  match store.find? (fun x => x.id == nid) with
  | none => (.err 404 "Nutrition entry not found", store)
  | some nd =>
      if nd.userId ≠ callerId then (.err 401 "User not authorized", store)
      else (.ok 200 nid, store.filter (fun x => x.id != nid))

/-- Embeds `deleteProgress` (progressController.js lines 41–65). -/
def deleteProgress (store : List ProgressDoc) (callerId pid : ℕ) :
    ApiResult ℕ × List ProgressDoc :=
  match store.find? (fun x => x.id == pid) with
  | none => (.err 400 "Progress entry not found", store)
  | some p =>
      if p.userId ≠ callerId then (.err 401 "User not authorized", store)
      else (.ok 200 pid, store.filter (fun x => x.id != pid))

/-- The update payload `req.body` of `updateWorkout`: each field may be
absent.  A present-but-falsy value (`0`, `""`) is kept distinct from an
absent one, as in JS. -/
structure UpdateBody where
  type : Option String
  duration : Option ℚ
  weight : Option ℚ
  calories : Option ℚ
deriving DecidableEq

/-- Embeds `updateWorkout` (workoutController.js lines 109–160).
`latestWeight` is the result of the `getLatestWeight` Progress lookup.
After the ownership check, when some of type/duration/weight is truthy and
calories is not, the handler recomputes: `finalType = type || workout.type`,
`finalDuration = duration || workout.duration`,
`finalWeight = weight || workout.weight || latestWeight` (writing the
fetched weight into the update when it came from the lookup), and stores
`calculateCalories(...)` when that is truthy.  `findByIdAndUpdate` then
overwrites exactly the present fields. -/
def updateWorkout (store : List WorkoutDoc) (latestWeight : Option ℚ)
    (callerId wid : ℕ) (body : UpdateBody) : ApiResult WorkoutDoc × List WorkoutDoc :=
  match store.find? (fun x => x.id == wid) with
  | none => (.err 400 "Workout not found", store)
  | some w =>
      if w.userId ≠ callerId then (.err 401 "User not authorized", store)
      else
        let recalc := (jsTruthyStr body.type || jsTruthy body.duration
          || jsTruthy body.weight) && !jsTruthy body.calories
        let finalType := if jsTruthyStr body.type then body.type.getD "" else w.type
        let finalDuration := if jsTruthy body.duration then body.duration.getD 0
          else w.duration
        let ownWeight := jsOr body.weight w.weight
        let finalWeight := jsOr ownWeight latestWeight
        let updWeight := if recalc && !jsTruthy ownWeight && jsTruthy latestWeight
          then latestWeight else body.weight
        let calcCal := calculateCalories finalType (some finalDuration) finalWeight
        let updCalories :=
          match calcCal with
          | some v => if recalc && decide (v ≠ 0) then some (v : ℚ) else body.calories
          | none => body.calories
        let w2 : WorkoutDoc :=
          { w with
            type := body.type.getD w.type
            duration := body.duration.getD w.duration
            weight := match updWeight with | some v => some v | none => w.weight
            calories := updCalories.getD w.calories }
        (.ok 200 w2, store.map (fun x => if x.id == wid then w2 else x))

/-- C8: a delete or update on a record that exists but belongs to another
user answers 401 "User not authorized" — distinct from the handler's
not-found response — leaves the store unchanged, and never reports
success; for workouts, nutrition entries and progress entries alike. -/
theorem ownership_enforced
    (wstore : List WorkoutDoc) (nstore : List NutritionDoc) (pstore : List ProgressDoc)
    (caller wid nid pid : ℕ) (w : WorkoutDoc) (nd : NutritionDoc) (p : ProgressDoc)
    (latestWeight : Option ℚ) (body : UpdateBody)
    (hw : wstore.find? (fun x => x.id == wid) = some w) (hwo : w.userId ≠ caller)
    (hn : nstore.find? (fun x => x.id == nid) = some nd) (hno : nd.userId ≠ caller)
    (hp : pstore.find? (fun x => x.id == pid) = some p) (hpo : p.userId ≠ caller) :
    deleteWorkout wstore caller wid = (.err 401 "User not authorized", wstore) ∧
    deleteNutrition nstore caller nid = (.err 401 "User not authorized", nstore) ∧
    deleteProgress pstore caller pid = (.err 401 "User not authorized", pstore) ∧
    updateWorkout wstore latestWeight caller wid body =
      (.err 401 "User not authorized", wstore) ∧
    (ApiResult.err 401 "User not authorized" : ApiResult ℕ) ≠
      .err 400 "Workout not found" ∧
    (ApiResult.err 401 "User not authorized" : ApiResult ℕ) ≠
      .err 404 "Nutrition entry not found" ∧
    (ApiResult.err 401 "User not authorized" : ApiResult ℕ) ≠
      .err 400 "Progress entry not found" ∧
    (∀ s i, (deleteWorkout wstore caller wid).1 ≠ .ok s i) := by
  have h1 : deleteWorkout wstore caller wid = (.err 401 "User not authorized", wstore) := by
    unfold deleteWorkout
    rw [hw]
    simp [hwo]
  refine ⟨h1, ?_, ?_, ?_, by simp, by simp, by simp, ?_⟩
  · unfold deleteNutrition
    rw [hn]
    simp [hno]
  · unfold deleteProgress
    rw [hp]
    simp [hpo]
  · unfold updateWorkout
    rw [hw]
    simp [hwo]
  · intro s i
    rw [h1]
    simp

/-- Witness for C8: caller 1 attempts to delete/update records owned by
user 2. -/
theorem ownership_enforced_witness :
    deleteWorkout [⟨1, 2, "running", 30, none, 300⟩] 1 1 =
      (.err 401 "User not authorized", [⟨1, 2, "running", 30, none, 300⟩]) ∧
    deleteNutrition [⟨1, 2, "rice", 200, 4, 40, 1⟩] 1 1 =
      (.err 401 "User not authorized", [⟨1, 2, "rice", 200, 4, 40, 1⟩]) ∧
    deleteProgress [⟨1, 2, 0, 70⟩] 1 1 =
      (.err 401 "User not authorized", [⟨1, 2, 0, 70⟩]) := by
  have h := ownership_enforced [⟨1, 2, "running", 30, none, 300⟩]
    [⟨1, 2, "rice", 200, 4, 40, 1⟩] [⟨1, 2, 0, 70⟩] 1 1 1 1
    ⟨1, 2, "running", 30, none, 300⟩ ⟨1, 2, "rice", 200, 4, 40, 1⟩ ⟨1, 2, 0, 70⟩
    none ⟨none, none, none, none⟩ rfl (by simp) rfl (by simp) rfl (by simp)
  exact ⟨h.1, h.2.1, h.2.2.1⟩

/-!
### Nutrition creation (`addNutrition`, nutritionController.js lines 131–164)

`req.body` values may be numbers or non-numeric (`undefined`, `NaN`, a
non-numeric string — everything with `isNaN(v) = true`); `JVal` models
that distinction.  The validation is:
`!food || !food.trim()` → 400 "Food name is required";
`!calories || isNaN(calories) || calories < 0` → 400 "Valid calories value
is required"; and each macro is `isNaN(v) ? 0 : Math.max(0, Number(v))`.
-/

/-- A JS request value as seen by `isNaN`/`Number`: a numeric value, or a
value with no numeric interpretation. -/
inductive JVal where
  | num (q : ℚ)
  | nonNum
deriving DecidableEq

/-- `isNaN(v) ? 0 : Math.max(0, Number(v))` — the macro sanitization of
`addNutrition` (lines 145–147). -/
def validatedMacro : JVal → ℚ
  | .num q => max 0 q
  | .nonNum => 0

/-- JS `String.prototype.trim`, as a character-list computation (strip
leading and trailing whitespace). -/
def jsTrim (s : String) : String :=
  String.mk (((s.data.dropWhile Char.isWhitespace).reverse.dropWhile
    Char.isWhitespace).reverse)

/-- The fields of an `addNutrition` request body. -/
structure NutritionInput where
  food : Option String
  calories : JVal
  protein : JVal
  carbs : JVal
  fat : JVal
deriving DecidableEq

/-- The data of a created nutrition entry (date and owner are attached by
the route and not part of the validation under study). -/
structure NutritionEntryData where
  food : String
  calories : ℚ
  protein : ℚ
  carbs : ℚ
  fat : ℚ
deriving DecidableEq

/-- The blocking validators of the `nutritionSchema` (server.js lines
36–98) on a document as built by `addNutrition`: `required`/empty food,
`maxlength` 200 on food, `min` 0 / `max` 10000 on calories, and `min` 0 /
`max` 1000 on each macro, each with its schema message.  The pre('save')
macro-calorie consistency hook (lines 182–200) only warns and never
blocks, so it contributes no error. -/
def nutritionSchemaErrors (e : NutritionEntryData) : List String :=
  (if e.food = "" then ["Food name is required"] else []) ++
  (if 200 < e.food.length then ["Food name cannot exceed 200 characters"] else []) ++
  (if e.calories < 0 then ["Calories cannot be negative"] else []) ++
  (if 10000 < e.calories then ["Calories seem unrealistically high"] else []) ++
  (if e.protein < 0 then ["Protein cannot be negative"] else []) ++
  (if 1000 < e.protein then ["Protein amount seems unrealistic"] else []) ++
  (if e.carbs < 0 then ["Carbs cannot be negative"] else []) ++
  (if 1000 < e.carbs then ["Carbs amount seems unrealistic"] else []) ++
  (if e.fat < 0 then ["Fat cannot be negative"] else []) ++
  (if 1000 < e.fat then ["Fat amount seems unrealistic"] else [])

/-- `Nutrition.create`: runs the schema validators; a failure throws a
`ValidationError`, which `addNutrition`'s catch surfaces as a status-500
response carrying `error.message` (the failed validator messages; the
mongoose `Nutrition validation failed: <path>:` framing around them is not
modelled).  Otherwise the document is persisted and returned. -/
def nutritionCreate (e : NutritionEntryData) :
    Except (ℕ × String) NutritionEntryData :=
  match nutritionSchemaErrors e with
  | [] => .ok e
  | msgs => .error (500, String.intercalate ", " msgs)

/-- Embeds `addNutrition` (nutritionController.js lines 131–164):
food-name validation, calories validation, macro sanitization, then
`Nutrition.create` with its schema validation.  For a numeric calories
value `q`, `!calories || isNaN(calories) || calories < 0` is
`q = 0 ∨ q < 0`; every non-numeric calories value is rejected (if falsy by
`!calories`, otherwise by `isNaN`). -/
def addNutrition (b : NutritionInput) : Except (ℕ × String) NutritionEntryData :=
  if !jsTruthyStr b.food || jsTrim (b.food.getD "") = "" then
    .error (400, "Food name is required")
  else
    match b.calories with
    | .nonNum => .error (400, "Valid calories value is required")
    | .num q =>
        if q = 0 ∨ q < 0 then .error (400, "Valid calories value is required")
        else
          nutritionCreate ⟨jsTrim (b.food.getD ""), q, validatedMacro b.protein,
            validatedMacro b.carbs, validatedMacro b.fat⟩

theorem validatedMacro_nonneg (m : JVal) : 0 ≤ validatedMacro m := by
  cases m
  · exact le_max_left 0 _
  · exact le_refl 0

theorem intercalate_singleton (s a : String) : String.intercalate s [a] = a := rfl

/-- C10 counterexample: the request {food "Oats", calories 150,
protein 5000, carbs −5, fat 20} has a negative carb value, so the claim
says it is created — but `Nutrition.create`'s schema validation rejects
the sanitized protein 5000 > 1000 and the request fails with a validation
error. -/
theorem addNutrition_schema_reject :
    addNutrition ⟨some "Oats", .num 150, .num 5000, .num (-5), .num 20⟩ =
      .error (500, "Protein amount seems unrealistic") ∧
    (-5 : ℚ) < 0 := by
  refine ⟨?_, by norm_num⟩
  norm_num [addNutrition, jsTruthyStr, validatedMacro, nutritionCreate,
    nutritionSchemaErrors, intercalate_singleton,
    show jsTrim "Oats" = "Oats" from rfl, max_eq_right, le_max_iff]
  have h1 : ¬("Oats" : String) = "" := by decide
  have h2 : ¬200 < ("Oats" : String).length := by decide
  simp [h1, h2, intercalate_singleton]

/-- C10 (amended): with a valid food name and positive calories, a
negative or non-numeric protein/carb/fat value does not by itself reject
the request — the entry is created with that macro clamped to `max 0 ·`
(0 for non-numbers) — provided the built document passes the schema
bounds (trimmed food name ≤ 200 characters, calories ≤ 10000, each
sanitized macro ≤ 1000; a sanitized macro above 1000 is instead rejected
by `Nutrition.create`).  A missing/non-numeric or negative calories value
is always rejected with a validation failure. -/
theorem addNutrition_macros (food : String) (hf : jsTrim food ≠ "")
    (hlen : (jsTrim food).length ≤ 200)
    (q : ℚ) (hq : 0 < q) (hq2 : q ≤ 10000) (protein carbs fat : JVal)
    (hp : validatedMacro protein ≤ 1000) (hcb : validatedMacro carbs ≤ 1000)
    (hft : validatedMacro fat ≤ 1000) :
    addNutrition ⟨some food, .num q, protein, carbs, fat⟩ =
      .ok ⟨jsTrim food, q, validatedMacro protein, validatedMacro carbs,
        validatedMacro fat⟩ ∧
    (∀ p : ℚ, p < 0 → validatedMacro (.num p) = 0) ∧
    validatedMacro .nonNum = 0 ∧
    (∀ cal : JVal, (cal = .nonNum ∨ ∃ cq : ℚ, cal = .num cq ∧ cq < 0) →
      addNutrition ⟨some food, cal, protein, carbs, fat⟩ =
        .error (400, "Valid calories value is required")) := by
  have hfood : food ≠ "" := by
    intro h
    subst h
    exact hf rfl
  refine ⟨?_, ?_, rfl, ?_⟩
  · have hentry : nutritionSchemaErrors ⟨jsTrim food, q, validatedMacro protein,
        validatedMacro carbs, validatedMacro fat⟩ = [] := by
      simp [nutritionSchemaErrors, hf, not_lt.mpr hlen, not_lt.mpr hq.le,
        not_lt.mpr hq2, not_lt.mpr hp, not_lt.mpr hcb, not_lt.mpr hft,
        not_lt.mpr (validatedMacro_nonneg protein),
        not_lt.mpr (validatedMacro_nonneg carbs),
        not_lt.mpr (validatedMacro_nonneg fat)]
    simp [addNutrition, jsTruthyStr, hfood, hf, hq.ne', not_lt.mpr hq.le,
      nutritionCreate, hentry]
  · intro p hp2
    simp [validatedMacro, max_eq_left hp2.le]
  · intro cal hcal
    rcases hcal with hcal | ⟨cq, hcal, hneg⟩
    · subst hcal
      simp [addNutrition, jsTruthyStr, hfood, hf]
    · subst hcal
      simp [addNutrition, jsTruthyStr, hfood, hf, hneg]

/-- Witness for the amended C10: "Oats", 150 kcal, protein −5 (clamped to
0), carbs non-numeric (0), fat 20 (kept); all schema bounds hold. -/
theorem addNutrition_macros_witness :
    addNutrition ⟨some "Oats", .num 150, .num (-5), .nonNum, .num 20⟩ =
      .ok ⟨jsTrim "Oats", 150, validatedMacro (.num (-5)), validatedMacro .nonNum,
        validatedMacro (.num 20)⟩ :=
  (addNutrition_macros "Oats" (by decide) (by decide) 150 (by norm_num) (by norm_num)
    (.num (-5)) .nonNum (.num 20) (by norm_num [validatedMacro, max_le_iff])
    (by norm_num [validatedMacro]) (by norm_num [validatedMacro, max_le_iff])).1
